import Mathlib

/-!
Verification development for the chat backend repository (Variant A,
`app/` tree). Each section shallowly embeds the Python functions the
claims refer to; database state is modelled by explicit record-of-lists
state passing, fallible code by `Except`, machine floats that only
carry exact decimal arithmetic by `ℚ`.
-/

deriving instance DecidableEq for Except

namespace Chat

/-- Typed application errors mirroring `app/core/exceptions.py`: each
carries the human-readable message the service raises. -/
inductive AppError where
  | authentication (msg : String)
  | validation (msg : String)
  | notFound (msg : String)
  | conflict (msg : String)
  | vectorStore (msg : String)
  deriving DecidableEq, Repr

/-! ## Core security (`app/core/security.py`)

A JWT is modelled by its decoded claim set; the external `jose`
encode/decode pair is signature- and payload-preserving on tokens this
code itself created, so `verify_token` is applied directly to the
payload `create_*_token` built.  The `exp` claim is time-dependent and
not part of the claims under verification, so it is omitted. -/

/-- Decoded JWT claim set: `payload.get("sub")` and `payload.get("type")`,
each `None` when the claim is absent. -/
structure TokenPayload where
  sub : Option String
  type : Option String
  deriving DecidableEq, Repr

/-- `create_access_token`: encodes `{"sub": str(subject), "type": "access"}`. -/
def create_access_token (subject : String) : TokenPayload :=
  { sub := some subject, type := some "access" }

/-- `create_refresh_token`: encodes `{"sub": str(subject), "type": "refresh"}`. -/
def create_refresh_token (subject : String) : TokenPayload :=
  { sub := some subject, type := some "refresh" }

/-- `verify_token`: returns the subject, or an `AuthenticationError` when
the subject claim is absent or the type claim differs from the expected
type (Python `None != "access"` is true, so an absent type also fails). -/
def verify_token (payload : TokenPayload) (token_type : String := "access") :
    Except AppError String :=
  match payload.sub with
  | none => .error (.authentication "Token missing subject")
  | some username =>
    if payload.type ≠ some token_type then
      .error (.authentication ("Invalid token type. Expected " ++ token_type))
    else
      .ok username

/-! ## Analytics convenience tracker (`app/services/analytics_service.py`) -/

/-- The two derived metrics `track_message_sent` computes before calling
`track_event`; Python floats carrying exact decimal constants are
modelled by `ℚ`. -/
structure MessageSentMetrics where
  estimated_cost : ℚ
  tokens_per_second : ℚ
  deriving DecidableEq, Repr

/-- `track_message_sent` lines 499-501: `estimated_cost = token_count * 0.00003`
and `tokens_per_second = token_count / processing_time if processing_time > 0 else 0`. -/
def track_message_sent (token_count : ℚ) (processing_time : ℚ) : MessageSentMetrics :=
  { estimated_cost := token_count * (3 / 100000)
  , tokens_per_second := if processing_time > 0 then token_count / processing_time else 0 }

/-! ## AuthService (`app/services/auth_service.py`)

The user table is a list of rows; `scalar_one_or_none` on an equality
query is `List.find?`.  The external bcrypt context is modelled by a
tagging hash: the development uses only its round-trip behaviour
(`verify_password p (get_password_hash p) = true`, and equality of the
stored hash decides a match). -/

/-- One row of the `users` table (the columns the claims touch). -/
structure UserRow where
  id : Nat
  username : String
  email : String
  full_name : Option String
  hashed_password : String
  is_active : Bool
  last_login : Option Nat
  deriving DecidableEq, Repr

/-- Model of `get_password_hash` (external bcrypt). -/
def get_password_hash (password : String) : String := "bcrypt$" ++ password

/-- Model of `verify_password` (external bcrypt verify). -/
def verify_password (plain hashed : String) : Bool := hashed == get_password_hash plain

/-- One row of the `profiles` table (the columns the claims touch). -/
structure ProfileRow where
  id : Nat
  user_id : Nat
  name : String
  description : String
  is_default : Bool
  is_active : Bool
  usage_count : Nat
  total_tokens_used : Nat
  retrieval_enabled : Bool
  deriving DecidableEq, Repr

/-- Database state seen by `AuthService`: user and profile tables plus the
autoincrement counters behind the integer primary keys. -/
structure AuthState where
  users : List UserRow
  profiles : List ProfileRow
  next_user_id : Nat
  next_profile_id : Nat
  deriving DecidableEq, Repr

/-- `get_user_by_username`: `select(User).where(User.username == username)`,
`scalar_one_or_none`. -/
def get_user_by_username (st : AuthState) (username : String) : Option UserRow :=
  st.users.find? (fun u => u.username == username)

/-- `get_user_by_email`: `select(User).where(User.email == email)`,
`scalar_one_or_none`. -/
def get_user_by_email (st : AuthState) (email : String) : Option UserRow :=
  st.users.find? (fun u => u.email == email)

/-- `authenticate_user`: looks up by username falling back to email,
returns `None` leaving the database untouched when the user is absent,
the password does not verify, or the user is inactive; otherwise sets
`last_login` to the current time and commits.  `now` stands for
`datetime.utcnow()`. -/
def authenticate_user (st : AuthState) (username password : String) (now : Nat) :
    Option UserRow × AuthState :=
  let user? :=
    match get_user_by_username st username with
    | some u => some u
    | none => get_user_by_email st username
  match user? with
  | none => (none, st)
  | some user =>
    if ¬ verify_password password user.hashed_password then
      (none, st)
    else if ¬ user.is_active then
      (none, st)
    else
      let user' := { user with last_login := some now }
      (some user',
       { st with users := st.users.map (fun u => if u.id == user.id then user' else u) })

/-- Input to `create_user` (`UserCreate` request schema; `is_active`
defaults to `True`). -/
structure UserCreate where
  username : String
  email : String
  password : String
  full_name : Option String
  is_active : Bool := true
  deriving DecidableEq, Repr

/-- `_create_default_profile`: inserts a profile named `"Default"` with
`is_default=True` for the user; the remaining columns take the model
defaults (`is_active=True`, zero counters, `retrieval_enabled=True`). -/
def create_default_profile (st : AuthState) (user : UserRow) : ProfileRow × AuthState :=
  let profile : ProfileRow :=
    { id := st.next_profile_id
    , user_id := user.id
    , name := "Default"
    , description := "Default chat profile"
    , is_default := true
    , is_active := true
    , usage_count := 0
    , total_tokens_used := 0
    , retrieval_enabled := true }
  (profile,
   { st with profiles := st.profiles ++ [profile], next_profile_id := st.next_profile_id + 1 })

/-- `create_user`: raises `ConflictError` (leaving the database unchanged)
when the username or the email already exists, checked in that order;
otherwise inserts the user with the bcrypt hash of the password and then
auto-creates the default profile.  Error messages abbreviate the
source's f-strings. -/
def create_user (st : AuthState) (user_data : UserCreate) :
    Except AppError UserRow × AuthState :=
  match get_user_by_username st user_data.username with
  | some _ => (.error (.conflict ("Username already exists: " ++ user_data.username)), st)
  | none =>
    match get_user_by_email st user_data.email with
    | some _ => (.error (.conflict ("Email already exists: " ++ user_data.email)), st)
    | none =>
      let user : UserRow :=
        { id := st.next_user_id
        , username := user_data.username
        , email := user_data.email
        , full_name := user_data.full_name
        , hashed_password := get_password_hash user_data.password
        , is_active := user_data.is_active
        , last_login := none }
      let st1 := { st with users := st.users ++ [user], next_user_id := st.next_user_id + 1 }
      let st2 := (create_default_profile st1 user).2
      (.ok user, st2)

end Chat

/-! ## Claim theorems -/

open Chat

/-- C1: verifying the token created for a subject with the matching
expected type returns the subject unchanged, and verifying a token of
one type against the other expected type fails with an authentication
error. -/
theorem c1_token_round_trip (s : String) :
    verify_token (create_access_token s) "access" = .ok s ∧
    verify_token (create_refresh_token s) "refresh" = .ok s ∧
    (∃ m, verify_token (create_refresh_token s) "access" = .error (.authentication m)) ∧
    (∃ m, verify_token (create_access_token s) "refresh" = .error (.authentication m)) :=
  ⟨rfl, rfl, ⟨"Invalid token type. Expected access", rfl⟩,
   ⟨"Invalid token type. Expected refresh", rfl⟩⟩

/-- C8: the recorded estimated cost is `token_count * 0.00003` dollars and
the recorded tokens-per-second is `token_count / processing_time` when the
processing time is positive and `0` when it is zero (the division is
guarded by the `processing_time > 0` test, so it is never taken at zero). -/
theorem c8_message_sent_metrics (t p : ℚ) :
    (track_message_sent t p).estimated_cost = t * (3 / 100000) ∧
    (p > 0 → (track_message_sent t p).tokens_per_second = t / p) ∧
    (p = 0 → (track_message_sent t p).tokens_per_second = 0) := by
  refine ⟨rfl, fun hp => ?_, fun hp => ?_⟩
  · simp [track_message_sent, hp]
  · simp [track_message_sent, hp]

/-- Witness for C8 at `t = 120`, `p = 2` and `p = 0`. -/
theorem c8_message_sent_metrics_witness :
    (track_message_sent 120 2).tokens_per_second = 60 ∧
    (track_message_sent 120 0).tokens_per_second = 0 := by
  constructor
  · have h := (c8_message_sent_metrics 120 2).2.1 (by norm_num)
    rw [h]; norm_num
  · exact (c8_message_sent_metrics 120 0).2.2 rfl

/-- `get_user_by_username` finds nothing iff no stored user carries the
username. -/
theorem get_user_by_username_eq_none {st : AuthState} {name : String} :
    get_user_by_username st name = none ↔ ∀ u ∈ st.users, u.username ≠ name := by
  simp [get_user_by_username, List.find?_eq_none]

/-- `get_user_by_email` finds nothing iff no stored user carries the email. -/
theorem get_user_by_email_eq_none {st : AuthState} {email : String} :
    get_user_by_email st email = none ↔ ∀ u ∈ st.users, u.email ≠ email := by
  simp [get_user_by_email, List.find?_eq_none]

/-- C6: registering a username or email already present fails with a
conflict error and leaves the user table unchanged; registering a
genuinely new username and email inserts exactly one user row and
auto-provisions exactly one profile for that user, named `"Default"` and
marked `is_default`. -/
theorem c6_create_user_conflict_and_default_profile (st : AuthState) (d : UserCreate) :
    ((∃ u ∈ st.users, u.username = d.username ∨ u.email = d.email) →
       (∃ m, (create_user st d).1 = .error (.conflict m)) ∧ (create_user st d).2 = st) ∧
    ((∀ u ∈ st.users, u.username ≠ d.username ∧ u.email ≠ d.email) →
       ∃ user, (create_user st d).1 = .ok user ∧
         (create_user st d).2.users = st.users ++ [user] ∧
         user.username = d.username ∧ user.email = d.email ∧
         ∃ p, (create_user st d).2.profiles = st.profiles ++ [p] ∧
           p.user_id = user.id ∧ p.name = "Default" ∧ p.is_default = true) := by
  constructor
  · rintro ⟨u, hu, hcase⟩
    unfold create_user
    cases hname : get_user_by_username st d.username with
    | some v => exact ⟨⟨_, rfl⟩, rfl⟩
    | none =>
      cases hemail : get_user_by_email st d.email with
      | some v => exact ⟨⟨_, rfl⟩, rfl⟩
      | none =>
        exfalso
        rcases hcase with h1 | h2
        · exact (get_user_by_username_eq_none.mp hname) u hu h1
        · exact (get_user_by_email_eq_none.mp hemail) u hu h2
  · intro hfresh
    have hname : get_user_by_username st d.username = none :=
      get_user_by_username_eq_none.mpr (fun u hu => (hfresh u hu).1)
    have hemail : get_user_by_email st d.email = none :=
      get_user_by_email_eq_none.mpr (fun u hu => (hfresh u hu).2)
    simp only [create_user, hname, hemail, create_default_profile]
    exact ⟨_, rfl, rfl, rfl, rfl, _, rfl, rfl, rfl, rfl⟩

/-- C10: whenever `authenticate_user` fails it returns no user and leaves
the stored user state unchanged; in particular an inactive user
presenting the correct password is rejected with the state (and hence
`last_login`) untouched, because the `is_active` test fires before the
`last_login` update. -/
theorem c10_authenticate_failure_leaves_state (st : AuthState)
    (username password : String) (now : Nat) :
    ((authenticate_user st username password now).1 = none →
       (authenticate_user st username password now).2 = st) ∧
    (∀ u, (get_user_by_username st username = some u ∨
            (get_user_by_username st username = none ∧
             get_user_by_email st username = some u)) →
       verify_password password u.hashed_password = true → u.is_active = false →
       authenticate_user st username password now = (none, st)) := by
  constructor
  · intro hnone
    unfold authenticate_user at hnone ⊢
    cases hname : get_user_by_username st username with
    | some u =>
      simp only [hname] at hnone ⊢
      by_cases hv : verify_password password u.hashed_password
      · by_cases ha : u.is_active
        · simp [hv, ha] at hnone
        · simp [hv, ha]
      · simp [hv]
    | none =>
      cases hemail : get_user_by_email st username with
      | some u =>
        simp only [hname, hemail] at hnone ⊢
        by_cases hv : verify_password password u.hashed_password
        · by_cases ha : u.is_active
          · simp [hv, ha] at hnone
          · simp [hv, ha]
        · simp [hv]
      | none => simp [hname, hemail]
  · rintro u (hname | ⟨hname, hemail⟩) hv ha
    · simp [authenticate_user, hname, hv, ha]
    · simp [authenticate_user, hname, hemail, hv, ha]

/-- A user row that is inactive but holds the bcrypt hash of `"pw"`. -/
def sampleInactiveUser : UserRow :=
  { id := 1
  , username := "alice"
  , email := "alice@example.com"
  , full_name := none
  , hashed_password := get_password_hash "pw"
  , is_active := false
  , last_login := none }

/-- State holding only the inactive sample user. -/
def sampleAuthState : AuthState :=
  { users := [sampleInactiveUser], profiles := [], next_user_id := 2, next_profile_id := 1 }

/-- Witness for C10: the inactive sample user presenting the correct
password is rejected and the state is returned unchanged. -/
theorem c10_authenticate_failure_leaves_state_witness :
    authenticate_user sampleAuthState "alice" "pw" 5 = (none, sampleAuthState) :=
  (c10_authenticate_failure_leaves_state sampleAuthState "alice" "pw" 5).2
    sampleInactiveUser (Or.inl (by decide)) (by decide) (by decide)

/-- Witness for C6: registering a fresh username and email against the
empty database succeeds and provisions the default profile. -/
theorem c6_create_user_witness :
    ∃ user,
      (create_user ⟨[], [], 1, 1⟩ ⟨"bob", "bob@example.com", "pw", none, true⟩).1 = .ok user ∧
      (create_user ⟨[], [], 1, 1⟩ ⟨"bob", "bob@example.com", "pw", none, true⟩).2.users =
        [] ++ [user] ∧
      user.username = "bob" ∧ user.email = "bob@example.com" ∧
      ∃ p,
        (create_user ⟨[], [], 1, 1⟩ ⟨"bob", "bob@example.com", "pw", none, true⟩).2.profiles =
          [] ++ [p] ∧
        p.user_id = user.id ∧ p.name = "Default" ∧ p.is_default = true :=
  (c6_create_user_conflict_and_default_profile ⟨[], [], 1, 1⟩
    ⟨"bob", "bob@example.com", "pw", none, true⟩).2 (by simp)

namespace Chat

/-! ## Document text cleaning (`app/utils/document_processor.py`, `_clean_text`)

Text is modelled as `List Char`; each `re.sub` becomes a recursive pass
in the source's order.  The model covers the ASCII range of Python's
`\s` class (Unicode whitespace beyond ASCII is not exercised by any
claim). -/

/-- Python regex `\s` on the ASCII range: space, tab, LF, CR, VT, FF. -/
def isPySpace (c : Char) : Bool :=
  c == ' ' || c == '\t' || c == '\n' || c == '\r' || c == '\x0b' || c == '\x0c'

/-- `re.sub(r'\s+', ' ', text)`: each maximal run of whitespace becomes a
single space.  The flag records whether the previous character was part
of a whitespace run. -/
def collapseWsAux : Bool → List Char → List Char
  | _, [] => []
  | prevSpace, c :: rest =>
    if isPySpace c then
      if prevSpace then collapseWsAux true rest
      else ' ' :: collapseWsAux true rest
    else c :: collapseWsAux false rest

/-- First cleaning step of `_clean_text`. -/
def collapseWs (l : List Char) : List Char := collapseWsAux false l

/-- The character class `[\x00-\x08\x0B\x0C\x0E-\x1F\x7F-\x9F]` removed by
the second cleaning step. -/
def isCtlStripped (c : Char) : Bool :=
  (c.toNat ≤ 0x08) || c.toNat == 0x0b || c.toNat == 0x0c ||
  (0x0e ≤ c.toNat && c.toNat ≤ 0x1f) || (0x7f ≤ c.toNat && c.toNat ≤ 0x9f)

/-- `re.sub(r'\r\n|\r', '\n', text)`: third cleaning step. -/
def normalizeCRLF : List Char → List Char
  | [] => []
  | [c] => if c = '\r' then ['\n'] else [c]
  | c :: d :: rest =>
    if c = '\r' then
      if d = '\n' then '\n' :: normalizeCRLF rest
      else '\n' :: normalizeCRLF (d :: rest)
    else c :: normalizeCRLF (d :: rest)

/-- `re.sub(r'\n{3,}', '\n\n', text)`: the counter is the number of
consecutive newlines seen immediately before the current character; from
the third newline of a run onward the character is dropped. -/
def collapseNlAux : Nat → List Char → List Char
  | _, [] => []
  | k, c :: rest =>
    if c = '\n' then
      if k ≥ 2 then collapseNlAux (k + 1) rest
      else '\n' :: collapseNlAux (k + 1) rest
    else c :: collapseNlAux 0 rest

/-- Fourth cleaning step of `_clean_text`. -/
def collapseNl (l : List Char) : List Char := collapseNlAux 0 l

/-- Python `str.strip()` (ASCII whitespace range). -/
def pyStrip (l : List Char) : List Char :=
  ((l.dropWhile isPySpace).reverse.dropWhile isPySpace).reverse

/-- `_clean_text`: the five steps in source order — collapse whitespace
runs, strip the control-character class, normalize CR/CRLF, collapse
3+ newlines, strip the ends (empty input short-circuits to `""`). -/
def clean_text (text : List Char) : List Char :=
  if text = [] then []
  else
    pyStrip (collapseNl (normalizeCRLF
      (List.filter (fun c => !(isCtlStripped c)) (collapseWs text))))

end Chat

/-- Every character the whitespace-collapsing pass emits is either a
plain space or a non-whitespace character of the input run structure. -/
theorem mem_collapseWsAux {c : Char} :
    ∀ (b : Bool) (l : List Char), c ∈ collapseWsAux b l → c = ' ' ∨ isPySpace c = false := by
  intro b l
  induction l generalizing b with
  | nil => intro h; cases h
  | cons d rest ih =>
    intro h
    rw [collapseWsAux] at h
    by_cases hd : isPySpace d
    · rw [if_pos hd] at h
      by_cases hb : b
      · rw [if_pos hb] at h; exact ih true h
      · rw [if_neg hb] at h
        rcases List.mem_cons.mp h with h1 | h2
        · exact Or.inl h1
        · exact ih true h2
    · rw [if_neg hd] at h
      rcases List.mem_cons.mp h with h1 | h2
      · exact Or.inr (h1 ▸ Bool.of_not_eq_true hd)
      · exact ih false h2

/-- No carriage return survives the whitespace-collapsing pass. -/
theorem cr_not_mem_collapseWs (l : List Char) : '\r' ∉ collapseWs l := by
  intro h
  rcases mem_collapseWsAux false l h with h1 | h2
  · exact absurd h1 (by decide)
  · exact absurd h2 (by decide)

/-- No line feed survives the whitespace-collapsing pass. -/
theorem lf_not_mem_collapseWs (l : List Char) : '\n' ∉ collapseWs l := by
  intro h
  rcases mem_collapseWsAux false l h with h1 | h2
  · exact absurd h1 (by decide)
  · exact absurd h2 (by decide)

/-- The CR/CRLF-normalization pass is the identity on text without CR. -/
theorem normalizeCRLF_eq_self : ∀ {l : List Char}, '\r' ∉ l → normalizeCRLF l = l
  | [], _ => rfl
  | [c], h => by
      have hc : ¬ c = '\r' := fun e => h (by subst e; exact List.mem_cons_self _ _)
      simp [normalizeCRLF, hc]
  | c :: d :: rest, h => by
      have hc : ¬ c = '\r' := fun e => h (by subst e; exact List.mem_cons_self _ _)
      have hrest : '\r' ∉ d :: rest := fun hm => h (List.mem_cons_of_mem c hm)
      rw [normalizeCRLF, if_neg hc, normalizeCRLF_eq_self hrest]

/-- The newline-collapsing pass is the identity on text without LF,
whatever the run counter. -/
theorem collapseNlAux_eq_self :
    ∀ {l : List Char}, '\n' ∉ l → ∀ k, collapseNlAux k l = l := by
  intro l
  induction l with
  | nil => intro _ _; rfl
  | cons c rest ih =>
    intro h k
    have hc : ¬ c = '\n' := fun e => h (by subst e; exact List.mem_cons_self _ _)
    rw [collapseNlAux, if_neg hc, ih (fun hm => h (List.mem_cons_of_mem c hm)) 0]

/-- Stripping the ends only removes characters. -/
theorem mem_pyStrip {c : Char} {l : List Char} (h : c ∈ pyStrip l) : c ∈ l := by
  unfold pyStrip at h
  rw [List.mem_reverse] at h
  have h2 := (List.dropWhile_sublist (l := (l.dropWhile isPySpace).reverse)
    (p := isPySpace)).mem h
  rw [List.mem_reverse] at h2
  exact (List.dropWhile_sublist (l := l) (p := isPySpace)).mem h2

/-- C4 counterexample: a double newline present in the input does not
survive `_clean_text` — the first substitution `\s+ -> " "` already
replaces it with a single space, so `clean_text "a\n\nb" = "a b"`,
contradicting the claim that single and double newlines survive. -/
theorem c4_clean_text_counterexample :
    clean_text ['a', '\n', '\n', 'b'] = ['a', ' ', 'b'] ∧
    '\n' ∉ clean_text ['a', '\n', '\n', 'b'] := by decide

/-- C4 amended: `_clean_text` collapses every run of whitespace
(newlines, carriage returns and tabs included) to a single space, strips
the control-character class, and trims the ends; the CR/CRLF
normalization and the 3+-newline collapsing are no-ops because no
newline or carriage return survives the initial whitespace collapse, so
no newline is ever present in the output. -/
theorem c4_clean_text_amended (text : List Char) :
    clean_text text =
      pyStrip (List.filter (fun c => !(isCtlStripped c)) (collapseWs text)) ∧
    '\n' ∉ clean_text text ∧ '\r' ∉ clean_text text ∧
    (∀ c ∈ clean_text text, isPySpace c = true → c = ' ') := by
  have hmid : ∀ c : Char,
      c ∈ List.filter (fun c => !(isCtlStripped c)) (collapseWs text) → c ∈ collapseWs text :=
    fun c hc => List.mem_of_mem_filter hc
  have hnl : '\n' ∉ List.filter (fun c => !(isCtlStripped c)) (collapseWs text) :=
    fun h => lf_not_mem_collapseWs text (hmid _ h)
  have hcr : '\r' ∉ List.filter (fun c => !(isCtlStripped c)) (collapseWs text) :=
    fun h => cr_not_mem_collapseWs text (hmid _ h)
  have heq : clean_text text =
      pyStrip (List.filter (fun c => !(isCtlStripped c)) (collapseWs text)) := by
    by_cases h0 : text = []
    · subst h0; rfl
    · rw [clean_text, if_neg h0, normalizeCRLF_eq_self hcr, collapseNl,
        collapseNlAux_eq_self hnl 0]
  refine ⟨heq, ?_, ?_, ?_⟩
  · rw [heq]; exact fun h => hnl (mem_pyStrip h)
  · rw [heq]; exact fun h => hcr (mem_pyStrip h)
  · intro c hc hsp
    rw [heq] at hc
    rcases mem_collapseWsAux false text (hmid c (mem_pyStrip hc)) with h1 | h2
    · exact h1
    · rw [hsp] at h2; cases h2

namespace Chat

/-! ## Readiness endpoint (`app/api/health.py`, `readiness_check`)

Each dependency probe is modelled by its observable outcome; the handler
body is followed statement by statement.  Only the `except` arms set the
overall status to `"unhealthy"`; the arms where a probe merely returns a
falsy value update the per-check status alone. -/

/-- Outcome of `check_db_connection()`: a boolean, or a raised exception. -/
inductive DbCheck where
  | returns (healthy : Bool)
  | raises (msg : String)
  deriving DecidableEq, Repr

/-- Outcome of `vector_service.get_vector_stats()`. -/
inductive VectorCheck where
  | ok
  | raises (msg : String)
  deriving DecidableEq, Repr

/-- Outcome of `llm_service.generate_embedding("test")`: the embedding
(whose Python truthiness — non-emptiness — decides the check), or a
raised exception. -/
inductive LlmCheck where
  | returns (embedding : List ℚ)
  | raises (msg : String)
  deriving DecidableEq, Repr

/-- The observable response of `/readyz`: the per-check statuses from
`health_status["checks"]`, the overall status, and the HTTP status code
(503 via `HTTPException` when the overall status is `"unhealthy"`,
otherwise 200). -/
structure ReadinessResponse where
  overall_status : String
  database_status : String
  vector_store_status : String
  llm_service_status : String
  http_status : Nat
  deriving DecidableEq, Repr

/-- `readiness_check`, lines 29-96 of `app/api/health.py`. -/
def readiness_check (dbc : DbCheck) (vc : VectorCheck) (lc : LlmCheck) : ReadinessResponse :=
  let overall0 := "healthy"
  let dbStatus :=
    match dbc with
    | .returns h => if h then "healthy" else "unhealthy"
    | .raises _ => "unhealthy"
  let overall1 :=
    match dbc with
    | .returns _ => overall0
    | .raises _ => "unhealthy"
  let vsStatus :=
    match vc with
    | .ok => "healthy"
    | .raises _ => "unhealthy"
  let overall2 :=
    match vc with
    | .ok => overall1
    | .raises _ => "unhealthy"
  let llmStatus :=
    match lc with
    | .returns e => if e.isEmpty then "unhealthy" else "healthy"
    | .raises _ => "unhealthy"
  let overall3 :=
    match lc with
    | .returns _ => overall2
    | .raises _ => "unhealthy"
  { overall_status := overall3
  , database_status := dbStatus
  , vector_store_status := vsStatus
  , llm_service_status := llmStatus
  , http_status := if overall3 = "unhealthy" then 503 else 200 }

end Chat

/-- C3: when `check_db_connection` reports failure by returning `False`
(no exception) while the vector-store and LLM checks succeed, the body
marks `checks.database.status` as `"unhealthy"` yet the endpoint answers
200 with overall status `"healthy"` — not the 503 the claim (and the
handler's own final status aggregation) prescribes, because this is the
only failure arm that does not set the overall status. -/
theorem c3_readyz_db_false_gives_200 :
    readiness_check (.returns false) .ok (.returns [1]) =
      { overall_status := "healthy"
      , database_status := "unhealthy"
      , vector_store_status := "healthy"
      , llm_service_status := "healthy"
      , http_status := 200 } := rfl

namespace Chat

/-! ## DocumentService upload (`app/services/document_service.py`)

Uploaded bytes are `List Nat`; the external SHA-256 digest is modelled
as an abstract content fingerprint (the development uses only that
byte-identical content yields the same digest); the text-extraction
utility is a parameter, since any outcome of it leaves the claims
intact. -/

/-- The configured limits `_validate_file` consults (`app/config.py`:
`max_file_size_mb`, default 50, and `allowed_file_types`, default
`pdf, txt, docx, md`). -/
structure Settings where
  max_file_size_mb : Nat
  allowed_file_types : List String
  deriving DecidableEq, Repr

/-- One row of the `documents` table (the columns the claims touch). -/
structure DocumentRow where
  id : Nat
  user_id : Nat
  filename : String
  file_type : String
  file_size : Nat
  content : String
  content_hash : List Nat
  is_public : Bool
  is_active : Bool
  processing_status : String
  access_count : Nat
  deriving DecidableEq, Repr

/-- Database state seen by `DocumentService`. -/
structure DocState where
  documents : List DocumentRow
  next_document_id : Nat
  deriving DecidableEq, Repr

/-- The `DocumentUpload` request schema fields the service reads. -/
structure DocumentUpload where
  filename : String
  content_type : String
  is_public : Bool
  deriving DecidableEq, Repr

/-- Model of `hashlib.sha256(file_content).hexdigest()` (external):
an abstract content fingerprint. -/
def sha256_hexdigest (content : List Nat) : List Nat := content

/-- `_get_file_extension`: `filename.split(".")[-1].lower()` when the
name contains a dot, else the empty string; computed on the character
list (the segment after the last dot, lowercased). -/
def get_file_extension (filename : String) : String :=
  if filename.data.contains '.' then
    String.mk
      (((filename.data.reverse.takeWhile (fun c => !(c == '.'))).reverse).map Char.toLower)
  else ""

/-- `_validate_file`: size limit, extension allow-list, then content
type, in source order; messages abbreviate the f-strings. -/
def validate_file (settings : Settings) (file_content : List Nat)
    (upload : DocumentUpload) : Except AppError Unit :=
  if file_content.length > settings.max_file_size_mb * 1024 * 1024 then
    .error (.validation "File size exceeds limit")
  else if !(settings.allowed_file_types.contains (get_file_extension upload.filename)) then
    .error (.validation "File type not allowed")
  else if upload.content_type = "" then
    .error (.validation "Content type is required")
  else
    .ok ()

/-- `_check_duplicate`: first active document of this user with the same
content hash. -/
def check_duplicate (st : DocState) (user_id : Nat) (content_hash : List Nat) :
    Option DocumentRow :=
  st.documents.find?
    (fun d => d.user_id == user_id && d.content_hash == content_hash && d.is_active)

/-- `upload_document`: validation, hashing, duplicate rejection, text
extraction, then the single row insert; every error path leaves the
database untouched.  `extract` stands for
`processor.extract_text` (whose failure the service re-raises as a
validation error).  The fire-and-forget embedding task is not part of
the synchronous state transition. -/
def upload_document (extract : List Nat → String → Except String String)
    (settings : Settings) (st : DocState) (user_id : Nat)
    (file_content : List Nat) (upload : DocumentUpload) :
    Except AppError DocumentRow × DocState :=
  match validate_file settings file_content upload with
  | .error e => (.error e, st)
  | .ok _ =>
    let content_hash := sha256_hexdigest file_content
    match check_duplicate st user_id content_hash with
    | some existing =>
      (.error (.conflict ("Document with same content already exists: " ++ existing.filename)),
       st)
    | none =>
      match extract file_content upload.content_type with
      | .error e => (.error (.validation ("Failed to process document: " ++ e)), st)
      | .ok processed_content =>
        let document : DocumentRow :=
          { id := st.next_document_id
          , user_id := user_id
          , filename := upload.filename
          , file_type := get_file_extension upload.filename
          , file_size := file_content.length
          , content := processed_content
          , content_hash := content_hash
          , is_public := upload.is_public
          , is_active := true
          , processing_status := "completed"
          , access_count := 0 }
        (.ok document,
         { documents := st.documents ++ [document]
         , next_document_id := st.next_document_id + 1 })

end Chat

/-- `find?` over an appended list searches the tail once the head part
finds nothing. -/
theorem find?_append_of_none {α : Type} {p : α → Bool} :
    ∀ {l1 : List α}, l1.find? p = none → ∀ l2, (l1 ++ l2).find? p = l2.find? p := by
  intro l1
  induction l1 with
  | nil => intro _ l2; rfl
  | cons a rest ih =>
    intro h l2
    cases hpa : p a with
    | true => simp [List.find?_cons, hpa] at h
    | false =>
      simp only [List.cons_append, List.find?_cons, hpa] at h ⊢
      exact ih h l2

/-- C5: an upload whose extension is outside the allow-list or whose
size exceeds the configured maximum fails with a validation error
leaving the document table untouched; and after a successful upload, a
second upload of the byte-identical content by the same user fails with
a conflict error and creates no second row. -/
theorem c5_upload_validation_and_duplicate
    (extract : List Nat → String → Except String String)
    (settings : Settings) (st : DocState) (user_id : Nat)
    (content : List Nat) (upload : DocumentUpload) :
    ((get_file_extension upload.filename ∉ settings.allowed_file_types ∨
      content.length > settings.max_file_size_mb * 1024 * 1024) →
       (∃ m, (upload_document extract settings st user_id content upload).1 =
          .error (.validation m)) ∧
       (upload_document extract settings st user_id content upload).2 = st) ∧
    (∀ d st1,
       upload_document extract settings st user_id content upload = (.ok d, st1) →
       (∃ m, (upload_document extract settings st1 user_id content upload).1 =
          .error (.conflict m)) ∧
       (upload_document extract settings st1 user_id content upload).2 = st1) := by
  constructor
  · intro hrej
    by_cases hsize : content.length > settings.max_file_size_mb * 1024 * 1024
    · simp [upload_document, validate_file, hsize]
    · rcases hrej with hext | hs
      · simp [upload_document, validate_file, hsize, hext]
      · exact absurd hs hsize
  · intro d st1 hok
    unfold upload_document at hok
    cases hval : validate_file settings content upload with
    | error e => rw [hval] at hok; simp at hok
    | ok u =>
      simp only [hval] at hok
      cases hdup : check_duplicate st user_id (sha256_hexdigest content) with
      | some ex => simp [hdup] at hok
      | none =>
        simp only [hdup] at hok
        cases hex : extract content upload.content_type with
        | error e => simp [hex] at hok
        | ok pc =>
          simp only [hex, Prod.mk.injEq, Except.ok.injEq] at hok
          obtain ⟨hd, hst⟩ := hok
          subst hd
          subst hst
          have hdup1 : check_duplicate
              { documents := st.documents ++
                  [{ id := st.next_document_id
                   , user_id := user_id
                   , filename := upload.filename
                   , file_type := get_file_extension upload.filename
                   , file_size := content.length
                   , content := pc
                   , content_hash := sha256_hexdigest content
                   , is_public := upload.is_public
                   , is_active := true
                   , processing_status := "completed"
                   , access_count := 0 }]
              , next_document_id := st.next_document_id + 1 }
              user_id (sha256_hexdigest content) = some
                { id := st.next_document_id
                , user_id := user_id
                , filename := upload.filename
                , file_type := get_file_extension upload.filename
                , file_size := content.length
                , content := pc
                , content_hash := sha256_hexdigest content
                , is_public := upload.is_public
                , is_active := true
                , processing_status := "completed"
                , access_count := 0 } := by
            unfold check_duplicate at hdup ⊢
            rw [find?_append_of_none hdup]
            simp [List.find?_cons]
          unfold upload_document
          simp only [hval, hdup1]
          exact ⟨⟨_, rfl⟩, trivial⟩

/-- Extraction stub for the C5 witness. -/
def exExtract : List Nat → String → Except String String := fun _ _ => .ok "text"

/-- Settings for the C5 witness: 1 MB limit, only `txt` allowed. -/
def exSettings : Settings := ⟨1, ["txt"]⟩

/-- A disallowed upload (extension `exe`). -/
def exUploadBad : DocumentUpload := ⟨"a.exe", "text/plain", false⟩

/-- An allowed upload (extension `txt`). -/
def exUploadTxt : DocumentUpload := ⟨"a.txt", "text/plain", false⟩

/-- The row the first successful witness upload produces. -/
def exDoc : DocumentRow :=
  ⟨1, 7, "a.txt", "txt", 1, "text", [1], false, true, "completed", 0⟩

/-- The state after the first successful witness upload. -/
def exDocState1 : DocState := ⟨[exDoc], 2⟩

/-- Witness for C5: a `.exe` upload is rejected with a validation error
leaving the empty table untouched, and re-uploading the byte-identical
`txt` content is rejected as a conflict leaving the one-row table
untouched. -/
theorem c5_upload_validation_and_duplicate_witness :
    ((∃ m, (upload_document exExtract exSettings ⟨[], 1⟩ 7 [1] exUploadBad).1 =
        .error (.validation m)) ∧
     (upload_document exExtract exSettings ⟨[], 1⟩ 7 [1] exUploadBad).2 = ⟨[], 1⟩) ∧
    ((∃ m, (upload_document exExtract exSettings exDocState1 7 [1] exUploadTxt).1 =
        .error (.conflict m)) ∧
     (upload_document exExtract exSettings exDocState1 7 [1] exUploadTxt).2 = exDocState1) :=
  ⟨(c5_upload_validation_and_duplicate exExtract exSettings ⟨[], 1⟩ 7 [1] exUploadBad).1
     (Or.inl (by decide)),
   (c5_upload_validation_and_duplicate exExtract exSettings ⟨[], 1⟩ 7 [1] exUploadTxt).2
     exDoc exDocState1 (by decide)⟩

namespace Chat

/-! ## VectorService (`app/services/vector_service.py`)

The database-side expression `1 - cosine_distance(embedding,
query_embedding)` involves square roots, so it is abstracted as a
function parameter `sim` from embeddings to scores (a fixed query
embedding is folded into it); the claims use only the expression's
value.  `ORDER BY ... DESC` is realised by an insertion sort on the
score. -/

/-- One row of the `documents` table as the vector service reads it. -/
structure VDoc where
  id : Nat
  user_id : Nat
  is_public : Bool
  is_active : Bool
  embedding : Option (List ℚ)
  access_count : Nat
  deriving DecidableEq, Repr

/-- The documents table. -/
structure VState where
  docs : List VDoc
  deriving DecidableEq, Repr

/-- One entry of `search_documents`' result: the document and the
`similarity` label selected alongside it. -/
structure DocumentSearchResult where
  document : VDoc
  similarity_score : ℚ
  deriving DecidableEq, Repr

/-- The score the query computes for a row (`0` is never used: the
filter keeps only rows whose `embedding` is present). -/
def doc_similarity (sim : List ℚ → ℚ) (d : VDoc) : ℚ :=
  match d.embedding with
  | some e => sim e
  | none => 0

/-- The user-visibility clause: `if user_id:` adds
`user_id == uid OR is_public` (Python truthiness — `None` and `0` take
the `else` branch), else `is_public == True`. -/
def user_visibility_ok (user_id : Option Nat) (d : VDoc) : Bool :=
  match user_id with
  | some uid => if uid = 0 then d.is_public else ((d.user_id == uid) || d.is_public)
  | none => d.is_public

/-- The full `WHERE` clause of `search_documents`. -/
def search_filter (sim : List ℚ → ℚ) (threshold : ℚ) (user_id : Option Nat)
    (d : VDoc) : Bool :=
  d.is_active && d.embedding.isSome &&
    decide (threshold ≤ doc_similarity sim d) && user_visibility_ok user_id d

/-- Insert a row into a list already sorted by descending score. -/
def insert_desc (sim : List ℚ → ℚ) (x : VDoc) : List VDoc → List VDoc
  | [] => [x]
  | y :: ys =>
    if doc_similarity sim y ≤ doc_similarity sim x then x :: y :: ys
    else y :: insert_desc sim x ys

/-- `ORDER BY similarity DESC` as an insertion sort. -/
def sort_desc (sim : List ℚ → ℚ) : List VDoc → List VDoc
  | [] => []
  | x :: xs => insert_desc sim x (sort_desc sim xs)

/-- `search_documents`: filter, order descending, limit, then bump each
returned row's `access_count` (the Python loop mutates each returned ORM
object once; rows are unique by primary key, so this is a single guarded
pass over the table) and return document + score pairs. -/
def search_documents (sim : List ℚ → ℚ) (st : VState) (user_id : Option Nat)
    (limit : Nat) (similarity_threshold : ℚ) :
    List DocumentSearchResult × VState :=
  let rows := (sort_desc sim (st.docs.filter (search_filter sim similarity_threshold user_id))).take limit
  let result_ids := rows.map (fun d => d.id)
  let docs2 := st.docs.map (fun d =>
    if result_ids.contains d.id then { d with access_count := d.access_count + 1 } else d)
  (rows.map (fun d => { document := d, similarity_score := doc_similarity sim d }),
   ⟨docs2⟩)

/-- `find_similar_documents`: fetch the reference row (error when absent
or without a usable embedding — Python truthiness also rejects an empty
one), filter out the reference id itself, apply the active/embedded/
threshold clauses and the reference row's visibility scope, order
descending, limit.  `sim2` abstracts
`1 - cosine_distance(embedding, reference_embedding)` as a function of
both embeddings; no access counter is touched here. -/
def find_similar_documents (sim2 : List ℚ → List ℚ → ℚ) (st : VState)
    (document_id : Nat) (limit : Nat) (similarity_threshold : ℚ) :
    Except AppError (List DocumentSearchResult) :=
  match st.docs.find? (fun d => d.id == document_id) with
  | none => .error (.vectorStore "Document not found or has no embedding")
  | some ref =>
    match ref.embedding with
    | none => .error (.vectorStore "Document not found or has no embedding")
    | some ref_emb =>
      if ref_emb.isEmpty then
        .error (.vectorStore "Document not found or has no embedding")
      else
        let sim := sim2 ref_emb
        let flt := fun d : VDoc =>
          (!(d.id == document_id)) && d.is_active && d.embedding.isSome &&
            decide (similarity_threshold ≤ doc_similarity sim d) &&
            (if ref.is_public then d.is_public
             else ((d.user_id == ref.user_id) || d.is_public))
        .ok (((sort_desc sim (st.docs.filter flt)).take limit).map
          (fun d => { document := d, similarity_score := doc_similarity sim d }))

end Chat

/-- Membership in an insertion step. -/
theorem mem_insert_desc {sim : List ℚ → ℚ} {x a : VDoc} :
    ∀ {l : List VDoc}, a ∈ insert_desc sim x l → a = x ∨ a ∈ l := by
  intro l
  induction l with
  | nil => intro h; rcases List.mem_singleton.mp h with h1; exact Or.inl h1
  | cons y ys ih =>
    intro h
    rw [insert_desc] at h
    by_cases hc : doc_similarity sim y ≤ doc_similarity sim x
    · rw [if_pos hc] at h
      rcases List.mem_cons.mp h with h1 | h2
      · exact Or.inl h1
      · exact Or.inr h2
    · rw [if_neg hc] at h
      rcases List.mem_cons.mp h with h1 | h2
      · exact Or.inr (h1 ▸ List.mem_cons_self y ys)
      · rcases ih h2 with h3 | h4
        · exact Or.inl h3
        · exact Or.inr (List.mem_cons_of_mem y h4)

/-- Membership is preserved by the descending sort. -/
theorem mem_sort_desc {sim : List ℚ → ℚ} {a : VDoc} :
    ∀ {l : List VDoc}, a ∈ sort_desc sim l → a ∈ l := by
  intro l
  induction l with
  | nil => intro h; cases h
  | cons x xs ih =>
    intro h
    rcases mem_insert_desc h with h1 | h2
    · exact h1 ▸ List.mem_cons_self x xs
    · exact List.mem_cons_of_mem x (ih h2)

/-- Inserting into a list sorted by descending score keeps it sorted. -/
theorem pairwise_insert_desc {sim : List ℚ → ℚ} {x : VDoc} :
    ∀ {l : List VDoc},
      l.Pairwise (fun a b => doc_similarity sim b ≤ doc_similarity sim a) →
      (insert_desc sim x l).Pairwise
        (fun a b => doc_similarity sim b ≤ doc_similarity sim a) := by
  intro l
  induction l with
  | nil => intro _; exact List.pairwise_singleton _ x
  | cons y ys ih =>
    intro h
    rcases List.pairwise_cons.mp h with ⟨hy, hys⟩
    rw [insert_desc]
    by_cases hc : doc_similarity sim y ≤ doc_similarity sim x
    · rw [if_pos hc]
      refine List.pairwise_cons.mpr ⟨?_, h⟩
      intro b hb
      rcases List.mem_cons.mp hb with h1 | h2
      · exact h1 ▸ hc
      · exact le_trans (hy b h2) hc
    · rw [if_neg hc]
      refine List.pairwise_cons.mpr ⟨?_, ih hys⟩
      intro b hb
      rcases mem_insert_desc hb with h1 | h2
      · exact h1 ▸ le_of_not_le hc
      · exact hy b h2

/-- The descending sort indeed sorts by descending score. -/
theorem pairwise_sort_desc {sim : List ℚ → ℚ} :
    ∀ (l : List VDoc),
      (sort_desc sim l).Pairwise
        (fun a b => doc_similarity sim b ≤ doc_similarity sim a) := by
  intro l
  induction l with
  | nil => exact List.Pairwise.nil
  | cons x xs ih => exact pairwise_insert_desc ih

/-- C7: every result of `search_documents` is an active stored document
with an embedding, visible under the user filter, labelled with the
similarity expression's value and clearing the threshold; results are
ordered by descending similarity; each returned document reappears in
the post-call state with its access counter incremented while documents
outside the result set are unchanged; and a successful
`find_similar_documents` never includes the reference id among its
results. -/
theorem c7_vector_search_properties (sim : List ℚ → ℚ) (sim2 : List ℚ → List ℚ → ℚ)
    (st : VState) (user_id : Option Nat) (limit : Nat) (threshold : ℚ)
    (document_id : Nat) (limit2 : Nat) (threshold2 : ℚ) :
    (∀ r ∈ (search_documents sim st user_id limit threshold).1,
       r.document ∈ st.docs ∧
       r.document.is_active = true ∧
       r.document.embedding.isSome = true ∧
       user_visibility_ok user_id r.document = true ∧
       r.similarity_score = doc_similarity sim r.document ∧
       threshold ≤ r.similarity_score) ∧
    List.Pairwise (fun a b : ℚ => b ≤ a)
      ((search_documents sim st user_id limit threshold).1.map
        (fun r => r.similarity_score)) ∧
    (∀ r ∈ (search_documents sim st user_id limit threshold).1,
       { r.document with access_count := r.document.access_count + 1 } ∈
         (search_documents sim st user_id limit threshold).2.docs) ∧
    (∀ d ∈ st.docs,
       d.id ∉ (search_documents sim st user_id limit threshold).1.map
         (fun r => r.document.id) →
       d ∈ (search_documents sim st user_id limit threshold).2.docs) ∧
    (∀ res, find_similar_documents sim2 st document_id limit2 threshold2 = .ok res →
       ∀ r ∈ res, r.document.id ≠ document_id) := by
  have hmem_rows : ∀ d : VDoc,
      d ∈ (sort_desc sim (st.docs.filter (search_filter sim threshold user_id))).take limit →
      d ∈ st.docs ∧ search_filter sim threshold user_id d = true := by
    intro d hd
    have h1 := mem_sort_desc ((List.take_sublist _ _).subset hd)
    exact List.mem_filter.mp h1
  refine ⟨?_, ?_, ?_, ?_, ?_⟩
  · intro r hr
    simp only [search_documents] at hr
    rcases List.mem_map.mp hr with ⟨d, hd, hrd⟩
    obtain ⟨hdocs, hflt⟩ := hmem_rows d hd
    subst hrd
    simp only [search_filter, Bool.and_eq_true, decide_eq_true_eq] at hflt
    exact ⟨hdocs, hflt.1.1.1, hflt.1.1.2, hflt.2, rfl, hflt.1.2⟩
  · simp only [search_documents, List.map_map]
    refine (List.pairwise_map).mpr ?_
    exact (pairwise_sort_desc _).sublist (List.take_sublist _ _)
  · intro r hr
    simp only [search_documents] at hr ⊢
    rcases List.mem_map.mp hr with ⟨d, hd, hrd⟩
    obtain ⟨hdocs, _⟩ := hmem_rows d hd
    subst hrd
    refine List.mem_map.mpr ⟨d, hdocs, ?_⟩
    have hid : d.id ∈
        ((sort_desc sim (st.docs.filter (search_filter sim threshold user_id))).take
          limit).map (fun d => d.id) :=
      List.mem_map.mpr ⟨d, hd, rfl⟩
    have hcont : (((sort_desc sim
        (st.docs.filter (search_filter sim threshold user_id))).take limit).map
          (fun d => d.id)).contains d.id = true := by
      simpa using hid
    rw [hcont]
    simp
  · intro d hd hnot
    simp only [search_documents, List.map_map] at hnot ⊢
    refine List.mem_map.mpr ⟨d, hd, ?_⟩
    have hcont : (((sort_desc sim
        (st.docs.filter (search_filter sim threshold user_id))).take limit).map
          (fun d => d.id)).contains d.id = false := by
      simpa using hnot
    rw [hcont]
    simp
  · intro res hres r hr
    unfold find_similar_documents at hres
    cases href : st.docs.find? (fun d => d.id == document_id) with
    | none => rw [href] at hres; cases hres
    | some ref =>
      simp only [href] at hres
      cases hemb : ref.embedding with
      | none => simp only [hemb] at hres; cases hres
      | some ref_emb =>
        simp only [hemb] at hres
        by_cases hempty : ref_emb.isEmpty = true
        · rw [if_pos hempty] at hres; cases hres
        · rw [if_neg hempty] at hres
          injection hres with hres
          subst hres
          rcases List.mem_map.mp hr with ⟨dd, hdd, hrd⟩
          have h1 := mem_sort_desc ((List.take_sublist _ _).subset hdd)
          obtain ⟨_, hflt⟩ := List.mem_filter.mp h1
          subst hrd
          simp only [Bool.and_eq_true] at hflt
          have hne : (!(dd.id == document_id)) = true := hflt.1.1.1.1
          simpa using hne

/-- A private active embedded document owned by user 7. -/
def exVDoc : VDoc := ⟨1, 7, false, true, some [1], 0⟩

/-- A public active embedded document owned by user 9. -/
def exVDoc2 : VDoc := ⟨2, 9, true, true, some [2], 0⟩

/-- Two-document table for the C7 witness. -/
def exVState : VState := ⟨[exVDoc, exVDoc2]⟩

/-- Constant similarity stand-in for the C7 witness. -/
def exSim : List ℚ → ℚ := fun _ => 1

/-- Constant pairwise similarity stand-in for the C7 witness. -/
def exSim2 : List ℚ → List ℚ → ℚ := fun _ _ => 1

/-- Witness for C7: on the concrete two-document table, the first
search result clears the threshold, its access counter is incremented
in the post-call state, and the find-similar result for reference
document 1 excludes id 1. -/
theorem c7_vector_search_properties_witness :
    ((0 : ℚ) ≤
      ({ document := exVDoc, similarity_score := 1 } :
        DocumentSearchResult).similarity_score) ∧
    ({ document := exVDoc, similarity_score := 1 } :
        DocumentSearchResult).document.is_active = true ∧
    ({ exVDoc with access_count := exVDoc.access_count + 1 } ∈
      (search_documents exSim exVState (some 7) 10 0).2.docs) ∧
    ({ document := exVDoc2, similarity_score := 1 } :
        DocumentSearchResult).document.id ≠ 1 := by
  have h := c7_vector_search_properties exSim exSim2 exVState (some 7) 10 0 1 10 0
  have hmem : ({ document := exVDoc, similarity_score := 1 } : DocumentSearchResult) ∈
      (search_documents exSim exVState (some 7) 10 0).1 := by decide
  have hres : find_similar_documents exSim2 exVState 1 10 0 =
      .ok [{ document := exVDoc2, similarity_score := 1 }] := by decide
  have hr : ({ document := exVDoc2, similarity_score := 1 } : DocumentSearchResult) ∈
      [({ document := exVDoc2, similarity_score := 1 } : DocumentSearchResult)] :=
    List.mem_singleton.mpr rfl
  exact ⟨(h.1 _ hmem).2.2.2.2.2, (h.1 _ hmem).2.1, h.2.2.1 _ hmem,
    h.2.2.2.2 _ hres _ hr⟩

namespace Chat

/-! ## ChatService (`app/services/chat_service.py`)

State covers the tables `send_message` writes (conversations, messages,
profiles).  The LLM call outcome is a parameter; context building and
retrieval only shape the prompt (and the documents table handled in the
vector section), not the rows the claim counts, and the fire-and-forget
embedding task is not awaited.  Timestamp columns are omitted. -/

/-- One row of the `messages` table (the columns the claims touch). -/
structure MessageRow where
  id : Nat
  conversation_id : Nat
  role : String
  content : String
  token_count : Nat
  is_deleted : Bool
  deriving DecidableEq, Repr

/-- One row of the `conversations` table (the columns the claims touch). -/
structure ConversationRow where
  id : Nat
  user_id : Nat
  title : String
  is_active : Bool
  message_count : Nat
  total_tokens : Nat
  deriving DecidableEq, Repr

/-- Database state seen by `ChatService`. -/
structure ChatState where
  conversations : List ConversationRow
  messages : List MessageRow
  profiles : List ProfileRow
  next_conversation_id : Nat
  next_message_id : Nat
  deriving DecidableEq, Repr

/-- What `llm_service.generate_response` returns (the fields used). -/
structure LLMResponse where
  content : String
  token_count : Nat
  model_used : String
  deriving DecidableEq, Repr

/-- The `ChatRequest` fields `send_message` reads. -/
structure ChatRequest where
  message : String
  conversation_id : Option Nat
  profile_id : Option Nat
  use_retrieval : Bool
  deriving DecidableEq, Repr

/-- The `ChatResponse` fields the claims touch. -/
structure ChatResponse where
  message : String
  conversation_id : Nat
  message_id : Nat
  token_count : Nat
  deriving DecidableEq, Repr

/-- The new-conversation title: the first 50 characters of the message
plus an ellipsis when longer (computed on the character list). -/
def truncate_title (message : String) : String :=
  if message.data.length > 50 then String.mk (message.data.take 50) ++ "..."
  else message

/-- `create_conversation`: insert with the column defaults
(`is_active=True`, zero counters). -/
def create_conversation (st : ChatState) (user_id : Nat) (title : String) :
    ConversationRow × ChatState :=
  let conversation : ConversationRow :=
    { id := st.next_conversation_id
    , user_id := user_id
    , title := title
    , is_active := true
    , message_count := 0
    , total_tokens := 0 }
  (conversation,
   { st with
      conversations := st.conversations ++ [conversation],
      next_conversation_id := st.next_conversation_id + 1 })

/-- `get_conversation`: ownership-checked fetch, `NotFoundError` otherwise. -/
def get_conversation (st : ChatState) (conversation_id user_id : Nat) :
    Except AppError ConversationRow :=
  match st.conversations.find?
      (fun c => c.id == conversation_id && c.user_id == user_id) with
  | none => .error (.notFound "Conversation not found")
  | some c => .ok c

/-- Step 1 of `send_message`: `if chat_request.conversation_id:` fetches
(Python truthiness — `None` and `0` create instead), else creates with
the truncated-title default. -/
def resolve_conversation (st : ChatState) (user_id : Nat) (req : ChatRequest) :
    Except AppError (ConversationRow × ChatState) :=
  match req.conversation_id with
  | some cid =>
    if cid = 0 then
      .ok (create_conversation st user_id (truncate_title req.message))
    else
      match get_conversation st cid user_id with
      | .error e => .error e
      | .ok c => .ok (c, st)
  | none => .ok (create_conversation st user_id (truncate_title req.message))

/-- `_get_user_profile`: explicit profile by id (Python truthiness on
`profile_id`), else the active default profile; `NotFoundError` when
absent. -/
def get_user_profile (st : ChatState) (user_id : Nat) (profile_id : Option Nat) :
    Except AppError ProfileRow :=
  match profile_id with
  | some pid =>
    if pid = 0 then
      match st.profiles.find?
          (fun p => p.user_id == user_id && p.is_default && p.is_active) with
      | none => .error (.notFound "No default profile found for user")
      | some p => .ok p
    else
      match st.profiles.find?
          (fun p => p.id == pid && p.user_id == user_id && p.is_active) with
      | none => .error (.notFound "Profile not found")
      | some p => .ok p
  | none =>
    match st.profiles.find?
        (fun p => p.user_id == user_id && p.is_default && p.is_active) with
    | none => .error (.notFound "No default profile found for user")
    | some p => .ok p

/-- `_save_message`: insert one message row (`token_count` defaults to 0
for the user turn; `is_deleted` takes its column default). -/
def save_message (st : ChatState) (conversation_id : Nat) (content role : String)
    (token_count : Nat) : MessageRow × ChatState :=
  let message : MessageRow :=
    { id := st.next_message_id
    , conversation_id := conversation_id
    , role := role
    , content := content
    , token_count := token_count
    , is_deleted := false }
  (message,
   { st with
      messages := st.messages ++ [message],
      next_message_id := st.next_message_id + 1 })

/-- `_update_conversation_stats`: the `UPDATE ... SET` increments
`message_count` by exactly one and `total_tokens` by the assistant
response's token count. -/
def update_conversation_stats (st : ChatState) (conversation_id token_count : Nat) :
    ChatState :=
  { st with conversations := st.conversations.map (fun c =>
      if c.id == conversation_id then
        { c with
           message_count := c.message_count + 1,
           total_tokens := c.total_tokens + token_count }
      else c) }

/-- `_update_profile_usage`: bump usage counters on the profile row. -/
def update_profile_usage (st : ChatState) (profile_id token_count : Nat) : ChatState :=
  { st with profiles := st.profiles.map (fun p =>
      if p.id == profile_id then
        { p with
           usage_count := p.usage_count + 1,
           total_tokens_used := p.total_tokens_used + token_count }
      else p) }

/-- `send_message`: resolve/create the conversation, resolve the
profile, persist the user turn, generate (`llm` is the provider
outcome), persist the assistant turn, update conversation and profile
counters, respond.  Failure after the conversation was committed leaves
the already-committed rows in place, as in the source. -/
def send_message (llm : LLMResponse) (st : ChatState) (user_id : Nat)
    (req : ChatRequest) : Except AppError ChatResponse × ChatState :=
  match resolve_conversation st user_id req with
  | .error e => (.error e, st)
  | .ok (conversation, st1) =>
    match get_user_profile st1 user_id req.profile_id with
    | .error e => (.error e, st1)
    | .ok profile =>
      let ums := save_message st1 conversation.id req.message "user" 0
      let ams := save_message ums.2 conversation.id llm.content "assistant" llm.token_count
      let st4 := update_conversation_stats ams.2 conversation.id llm.token_count
      let st5 := update_profile_usage st4 profile.id llm.token_count
      (.ok { message := llm.content
           , conversation_id := conversation.id
           , message_id := ams.1.id
           , token_count := llm.token_count }, st5)

end Chat

/-- A guarded update maps to the identity on a list none of whose
elements satisfy the guard. -/
theorem map_ite_id {α : Type} {f : α → α} {p : α → Bool} :
    ∀ {l : List α}, (∀ a ∈ l, p a = false) →
      l.map (fun a => if p a then f a else a) = l := by
  intro l
  induction l with
  | nil => intro _; rfl
  | cons x xs ih =>
    intro h
    rw [List.map_cons, if_neg, ih (fun a ha => h a (List.mem_cons_of_mem x ha))]
    rw [h x (List.mem_cons_self x xs)]
    exact Bool.false_ne_true

/-- The default profile of user 7 for the C2 scenario. -/
def exProfile : ProfileRow := ⟨1, 7, "Default", "Default chat profile", true, true, 0, 0, true⟩

/-- Fresh chat state: no conversations or messages, one default profile. -/
def exChatState : ChatState := ⟨[], [], [exProfile], 1, 1⟩

/-- `{message: "Hello"}` with no conversation id. -/
def exChatReq : ChatRequest := ⟨"Hello", none, none, false⟩

/-- Concrete assistant outcome: 5 tokens. -/
def exLLM : LLMResponse := ⟨"Hi!", 5, "gpt-4"⟩

/-- C2 counterexample: on a fresh state, a successful `send_message`
with no `conversation_id` persists two messages for the new
conversation, yet `_update_conversation_stats` leaves its
`message_count` at 1 (the `UPDATE` adds one, not two), refuting the
claimed increment of 2; `total_tokens` does rise by the assistant
message's 5 tokens. -/
theorem c2_send_message_counterexample :
    ((send_message exLLM exChatState 7 exChatReq).2.conversations.map
      (fun c => c.message_count)) = [1] ∧
    (send_message exLLM exChatState 7 exChatReq).2.messages.length = 2 ∧
    ((send_message exLLM exChatState 7 exChatReq).2.conversations.map
      (fun c => c.total_tokens)) = [5] ∧
    (send_message exLLM exChatState 7 exChatReq).1 =
      .ok { message := "Hi!", conversation_id := 1, message_id := 2, token_count := 5 } := by
  decide

/-- C2 amended: a successful `send_message` with no `conversation_id`
appends exactly one new conversation, persists exactly the user and
assistant messages for it, returns that conversation's id, and
increments its `message_count` by 1 — not 2 — and its `total_tokens` by
the assistant message's token count.  `hfresh` is the autoincrement
invariant that no stored conversation already carries the next id. -/
theorem c2_send_message_amended (llm : LLMResponse) (st : ChatState) (user_id : Nat)
    (req : ChatRequest) (resp : ChatResponse) (st5 : ChatState)
    (hreq : req.conversation_id = none)
    (hfresh : ∀ c ∈ st.conversations, c.id ≠ st.next_conversation_id)
    (hrun : send_message llm st user_id req = (.ok resp, st5)) :
    ∃ conversation : ConversationRow,
      conversation.id = st.next_conversation_id ∧
      conversation.message_count = 0 ∧
      conversation.total_tokens = 0 ∧
      st5.conversations = st.conversations ++
        [{ conversation with
            message_count := conversation.message_count + 1,
            total_tokens := conversation.total_tokens + llm.token_count }] ∧
      st5.messages = st.messages ++
        [{ id := st.next_message_id
         , conversation_id := conversation.id
         , role := "user"
         , content := req.message
         , token_count := 0
         , is_deleted := false },
         { id := st.next_message_id + 1
         , conversation_id := conversation.id
         , role := "assistant"
         , content := llm.content
         , token_count := llm.token_count
         , is_deleted := false }] ∧
      resp.conversation_id = conversation.id ∧
      resp.token_count = llm.token_count := by
  have hres : resolve_conversation st user_id req =
      .ok (create_conversation st user_id (truncate_title req.message)) := by
    unfold resolve_conversation
    rw [hreq]
  unfold send_message at hrun
  simp only [hres, create_conversation] at hrun
  cases hprof : get_user_profile
      { st with
         conversations := st.conversations ++
           [⟨st.next_conversation_id, user_id, truncate_title req.message, true, 0, 0⟩],
         next_conversation_id := st.next_conversation_id + 1 }
      user_id req.profile_id with
  | error e => rw [hprof] at hrun; simp at hrun
  | ok profile =>
    rw [hprof] at hrun
    simp only [save_message, update_conversation_stats, update_profile_usage,
      Prod.mk.injEq, Except.ok.injEq] at hrun
    obtain ⟨hresp, hst5⟩ := hrun
    subst hresp
    subst hst5
    refine ⟨⟨st.next_conversation_id, user_id, truncate_title req.message, true, 0, 0⟩,
      rfl, rfl, rfl, ?_, ?_, rfl, rfl⟩
    · show (st.conversations ++
          [(⟨st.next_conversation_id, user_id, truncate_title req.message, true, 0, 0⟩ :
            ConversationRow)]).map _ = _
      rw [List.map_append]
      have h1 : st.conversations.map (fun c : ConversationRow =>
          if c.id == st.next_conversation_id then
            { c with
               message_count := c.message_count + 1,
               total_tokens := c.total_tokens + llm.token_count }
          else c) = st.conversations := by
        apply map_ite_id
        intro c hc
        exact beq_eq_false_iff_ne.mpr (hfresh c hc)
      rw [h1]
      simp
    · simp [List.append_assoc]

/-- The response the C2 witness run produces. -/
def exChatResp : ChatResponse := ⟨"Hi!", 1, 2, 5⟩

/-- The state the C2 witness run ends in. -/
def exChatState5 : ChatState :=
  ⟨[⟨1, 7, "Hello", true, 1, 5⟩],
   [⟨1, 1, "user", "Hello", 0, false⟩, ⟨2, 1, "assistant", "Hi!", 5, false⟩],
   [⟨1, 7, "Default", "Default chat profile", true, true, 1, 5, true⟩], 2, 3⟩

/-- Witness for the amended C2 on the concrete fresh-state run. -/
theorem c2_send_message_amended_witness :
    ∃ conversation : ConversationRow,
      conversation.id = exChatState.next_conversation_id ∧
      conversation.message_count = 0 ∧
      conversation.total_tokens = 0 ∧
      exChatState5.conversations = exChatState.conversations ++
        [{ conversation with
            message_count := conversation.message_count + 1,
            total_tokens := conversation.total_tokens + exLLM.token_count }] ∧
      exChatState5.messages = exChatState.messages ++
        [{ id := exChatState.next_message_id
         , conversation_id := conversation.id
         , role := "user"
         , content := exChatReq.message
         , token_count := 0
         , is_deleted := false },
         { id := exChatState.next_message_id + 1
         , conversation_id := conversation.id
         , role := "assistant"
         , content := exLLM.content
         , token_count := exLLM.token_count
         , is_deleted := false }] ∧
      exChatResp.conversation_id = conversation.id ∧
      exChatResp.token_count = exLLM.token_count :=
  c2_send_message_amended exLLM exChatState 7 exChatReq exChatResp exChatState5
    rfl (by decide) (by decide)

namespace Chat

/-! ## `chunk_text` (`app/utils/helpers.py`)

Text is again `List Char`.  Python's `while` loop is modelled with
explicit fuel (`none` = the fuel ran out); the claim is that under the
stated overlap bound the fuel `len(text) + 1` always suffices.  The
float comparison `sentence_end > start + chunk_size * 0.7` is modelled
exactly over the integers as
`10 * sentence_end > 10 * start + 7 * chunk_size`.  `start = end -
overlap` can go below zero in Python only when the overlap exceeds the
chunk end; the model truncates at 0 there — the theorems assume
`10 * overlap < 7 * chunk_size`, under which the subtraction never
truncates. -/

/-- Python `text.rfind(ch, start, stop)`: the largest index in
`[start, stop)` holding `ch`, or `-1`. -/
def py_rfind (l : List Char) (ch : Char) (start stop : Nat) : Int :=
  match ((List.range stop).filter
      (fun i => decide (start ≤ i) && (l.get? i == some ch))).getLast? with
  | some i => (i : Int)
  | none => -1

/-- `max(rfind('.'), rfind('!'), rfind('?'))` over the chunk window. -/
def sentence_end (l : List Char) (start stop : Nat) : Int :=
  max (max (py_rfind l '.' start stop) (py_rfind l '!' start stop))
      (py_rfind l '?' start stop)

/-- The `while start < len(text)` loop of `chunk_text`, with fuel. -/
def chunk_text_loop (l : List Char) (chunk_size overlap : Nat) :
    Nat → Nat → List (List Char) → Option (List (List Char))
  | 0, _, _ => none
  | fuel + 1, start, chunks =>
    if start < l.length then
      let end0 := start + chunk_size
      let endF :=
        if end0 < l.length then
          let se := sentence_end l start end0
          if 10 * se > 10 * (start : Int) + 7 * (chunk_size : Int) then (se + 1).toNat
          else end0
        else end0
      let chunk := pyStrip ((l.drop start).take (endF - start))
      let chunks2 := if chunk = [] then chunks else chunks ++ [chunk]
      chunk_text_loop l chunk_size overlap fuel (endF - overlap) chunks2
    else
      some chunks

/-- `chunk_text` (defaults `chunk_size=1000`, `overlap=100`): short text
is returned whole; otherwise the loop runs with fuel `len(text) + 1`. -/
def chunk_text (l : List Char) (chunk_size : Nat := 1000) (overlap : Nat := 100) :
    Option (List (List Char)) :=
  if l.length ≤ chunk_size then some [l]
  else chunk_text_loop l chunk_size overlap (l.length + 1) 0 []

end Chat

/-- `rfind` stays below the window's right edge. -/
theorem py_rfind_lt (l : List Char) (ch : Char) (start stop : Nat) :
    py_rfind l ch start stop < (stop : Int) := by
  unfold py_rfind
  cases hg : ((List.range stop).filter
      (fun i => decide (start ≤ i) && (l.get? i == some ch))).getLast? with
  | none =>
    show (-1 : Int) < (stop : Int)
    omega
  | some i =>
    show (i : Int) < (stop : Int)
    have hopt : i ∈ ((List.range stop).filter
        (fun i => decide (start ≤ i) && (l.get? i == some ch))).getLast? :=
      Option.mem_def.mpr hg
    obtain ⟨hne, heq⟩ := List.mem_getLast?_eq_getLast hopt
    have hmem : i ∈ (List.range stop).filter
        (fun i => decide (start ≤ i) && (l.get? i == some ch)) :=
      heq ▸ List.getLast_mem hne
    have := List.mem_range.mp (List.mem_of_mem_filter hmem)
    omega

/-- The preferred break point stays below the window's right edge. -/
theorem sentence_end_lt (l : List Char) (start stop : Nat) :
    sentence_end l start stop < (stop : Int) := by
  unfold sentence_end
  have h1 := py_rfind_lt l '.' start stop
  have h2 := py_rfind_lt l '!' start stop
  have h3 := py_rfind_lt l '?' start stop
  omega

/-- Stripping only shortens a chunk. -/
theorem pyStrip_length_le (l : List Char) : (pyStrip l).length ≤ l.length := by
  unfold pyStrip
  have h1 := (List.dropWhile_sublist (l := l) (p := isPySpace)).length_le
  have h2 := (List.dropWhile_sublist (l := (l.dropWhile isPySpace).reverse)
    (p := isPySpace)).length_le
  simp only [List.length_reverse] at *
  omega

/-- The chunk end chosen by one iteration never passes
`start + chunk_size`. -/
theorem chunk_end_le (l : List Char) (chunk_size start : Nat) :
    (if start + chunk_size < l.length then
       (if 10 * sentence_end l start (start + chunk_size) >
           10 * (start : Int) + 7 * (chunk_size : Int) then
          (sentence_end l start (start + chunk_size) + 1).toNat
        else start + chunk_size)
     else start + chunk_size) ≤ start + chunk_size := by
  by_cases hend : start + chunk_size < l.length
  · rw [if_pos hend]
    by_cases hcmp : 10 * sentence_end l start (start + chunk_size) >
        10 * (start : Int) + 7 * (chunk_size : Int)
    · rw [if_pos hcmp]
      have := sentence_end_lt l start (start + chunk_size)
      omega
    · rw [if_neg hcmp]
  · rw [if_neg hend]

/-- With the overlap below 70% of the chunk size, one iteration strictly
advances the start position. -/
theorem chunk_start_advances (l : List Char) (chunk_size overlap start : Nat)
    (h : 10 * overlap < 7 * chunk_size) :
    start + 1 ≤
      (if start + chunk_size < l.length then
         (if 10 * sentence_end l start (start + chunk_size) >
             10 * (start : Int) + 7 * (chunk_size : Int) then
            (sentence_end l start (start + chunk_size) + 1).toNat
          else start + chunk_size)
       else start + chunk_size) - overlap := by
  by_cases hend : start + chunk_size < l.length
  · rw [if_pos hend]
    by_cases hcmp : 10 * sentence_end l start (start + chunk_size) >
        10 * (start : Int) + 7 * (chunk_size : Int)
    · rw [if_pos hcmp]
      omega
    · rw [if_neg hcmp]
      omega
  · rw [if_neg hend]
    omega

/-- With the overlap below 70% of the chunk size, fuel exceeding the
remaining length always suffices for the loop. -/
theorem chunk_text_loop_isSome (l : List Char) (chunk_size overlap : Nat)
    (h : 10 * overlap < 7 * chunk_size) :
    ∀ (fuel start : Nat) (chunks : List (List Char)),
      l.length - start < fuel →
      (chunk_text_loop l chunk_size overlap fuel start chunks).isSome = true := by
  intro fuel
  induction fuel with
  | zero => intro start chunks hf; omega
  | succ fuel ih =>
    intro start chunks hf
    rw [chunk_text_loop]
    dsimp only
    by_cases hs : start < l.length
    · rw [if_pos hs]
      apply ih
      have := chunk_start_advances l chunk_size overlap start h
      omega
    · rw [if_neg hs]
      rfl

/-- Every chunk the loop appends has length at most the chunk size. -/
theorem chunk_text_loop_chunks_le (l : List Char) (chunk_size overlap : Nat) :
    ∀ (fuel start : Nat) (chunks out : List (List Char)),
      chunk_text_loop l chunk_size overlap fuel start chunks = some out →
      (∀ ch ∈ chunks, ch.length ≤ chunk_size) →
      ∀ ch ∈ out, ch.length ≤ chunk_size := by
  intro fuel
  induction fuel with
  | zero => intro start chunks out hrun; cases hrun
  | succ fuel ih =>
    intro start chunks out hrun hchunks
    rw [chunk_text_loop] at hrun
    dsimp only at hrun
    by_cases hs : start < l.length
    · rw [if_pos hs] at hrun
      refine ih _ _ _ hrun ?_
      intro ch hch
      by_cases hempty : pyStrip ((l.drop start).take
          ((if start + chunk_size < l.length then
              (if 10 * sentence_end l start (start + chunk_size) >
                  10 * (start : Int) + 7 * (chunk_size : Int) then
                 (sentence_end l start (start + chunk_size) + 1).toNat
               else start + chunk_size)
            else start + chunk_size) - start)) = []
      · rw [if_pos hempty] at hch
        exact hchunks ch hch
      · rw [if_neg hempty] at hch
        rcases List.mem_append.mp hch with hold | hnew
        · exact hchunks ch hold
        · have hch2 := List.mem_singleton.mp hnew
          subst hch2
          have h1 := pyStrip_length_le ((l.drop start).take
            ((if start + chunk_size < l.length then
                (if 10 * sentence_end l start (start + chunk_size) >
                    10 * (start : Int) + 7 * (chunk_size : Int) then
                   (sentence_end l start (start + chunk_size) + 1).toNat
                 else start + chunk_size)
              else start + chunk_size) - start))
          have h2 : ((l.drop start).take
              ((if start + chunk_size < l.length then
                  (if 10 * sentence_end l start (start + chunk_size) >
                      10 * (start : Int) + 7 * (chunk_size : Int) then
                     (sentence_end l start (start + chunk_size) + 1).toNat
                   else start + chunk_size)
                else start + chunk_size) - start)).length ≤
              (if start + chunk_size < l.length then
                 (if 10 * sentence_end l start (start + chunk_size) >
                     10 * (start : Int) + 7 * (chunk_size : Int) then
                    (sentence_end l start (start + chunk_size) + 1).toNat
                  else start + chunk_size)
               else start + chunk_size) - start := by
            rw [List.length_take]
            omega
          have h3 := chunk_end_le l chunk_size start
          omega
    · rw [if_neg hs] at hrun
      cases hrun
      exact hchunks

/-- C9: whenever the overlap is below 70% of the chunk size (the default
`chunk_size=1000`, `overlap=100` included), `chunk_text` terminates and
every chunk it returns has length at most `chunk_size`.  The loop model
carries fuel `len(text) + 1`; termination is the statement that this
fuel suffices (`some` result). -/
theorem c9_chunk_text_terminates_and_bounded (l : List Char) (chunk_size overlap : Nat)
    (h : 10 * overlap < 7 * chunk_size) :
    ∃ chunks, chunk_text l chunk_size overlap = some chunks ∧
      ∀ ch ∈ chunks, ch.length ≤ chunk_size := by
  unfold chunk_text
  by_cases hlen : l.length ≤ chunk_size
  · rw [if_pos hlen]
    refine ⟨[l], rfl, ?_⟩
    intro ch hch
    rw [List.mem_singleton.mp hch]
    exact hlen
  · rw [if_neg hlen]
    have hsome := chunk_text_loop_isSome l chunk_size overlap h (l.length + 1) 0 []
      (by omega)
    obtain ⟨out, hout⟩ := Option.isSome_iff_exists.mp hsome
    exact ⟨out, hout,
      chunk_text_loop_chunks_le l chunk_size overlap _ _ _ _ hout
        (fun ch hch => absurd hch (List.not_mem_nil ch))⟩

/-- Witness for C9 at the concrete text `"abcdefgh"` with
`chunk_size = 3`, `overlap = 1`. -/
theorem c9_chunk_text_witness :
    ∃ chunks, chunk_text ("abcdefgh".data) 3 1 = some chunks ∧
      ∀ ch ∈ chunks, ch.length ≤ 3 :=
  c9_chunk_text_terminates_and_bounded ("abcdefgh".data) 3 1 (by decide)
